import Mathlib

/-!
Shallow embedding of `pkg/cluster/nodes/node.go` (the kind node handle).

The Go code talks to an external container runtime through
`docker.Inspect` / `exec.CombinedOutputLines` / `cmd.Run()`.  In this
embedding every external call is an explicit parameter of the operation:
a successful call yields the captured output lines, a failed call yields a
`GoError`.  The per-node metadata cache (`nodeCache`) is passed and
returned explicitly; its reader/writer lock disappears because the
embedding is sequential, but the access discipline (read accessor, single
`set` mutation entry point) is kept exactly as in the source.
-/

/-- Model of a Go `error` value as produced by the `github.com/pkg/errors`
package: a base error from an external layer, a wrapping of an inner error
with a context message (`errors.Wrap`/`errors.Wrapf`), or a fresh formatted
error (`errors.Errorf`). -/
inductive GoError where
  | base (msg : String)
  | wrap (inner : GoError) (msg : String)
  | errorf (msg : String)
deriving DecidableEq, Repr

/-- An error that carries a wrapping context message added by this package
(`errors.Wrap`/`errors.Wrapf`). -/
def GoError.isWrap : GoError → Bool
  | .wrap _ _ => true
  | _ => false

/-- An error freshly constructed by this package with a descriptive message
(`errors.Errorf`). -/
def GoError.isErrorf : GoError → Bool
  | .errorf _ => true
  | _ => false

/-- The outcome of one external runtime call that captures output lines
(`docker.Inspect` or `exec.CombinedOutputLines`). -/
abbrev RunLines := Except GoError (List String)

/-- Association-list lookup, modelling Go `v, ok := m[k]` presence lookup on
the `map[int32]int32` port map. -/
def mapLookup (m : List (Int × Int)) (k : Int) : Option Int :=
  match m with
  | [] => none
  | (k', v) :: rest => if k' = k then some v else mapLookup rest k

/-- Association-list insertion, modelling Go map assignment `m[k] = v`:
replaces the entry for `k` if present, otherwise appends it. -/
def mapInsert (m : List (Int × Int)) (k v : Int) : List (Int × Int) :=
  match m with
  | [] => [(k, v)]
  | (k', v') :: rest =>
      if k' = k then (k, v) :: rest else (k', v') :: mapInsert rest k v

/-- The per-node metadata cache (`nodeCache` in node.go).  Empty strings mean
"unfetched"; `ports = none` models the nil Go map before its first write. -/
structure nodeCache where
  kubernetesVersion : String := ""
  ip : String := ""
  ports : Option (List (Int × Int)) := none
  role : String := ""
deriving DecidableEq, Repr

/-- A node cache with nothing fetched yet, as created alongside a node. -/
def emptyCache : nodeCache := {}

/-- `nodeCache.set`: the single mutation entry point; it runs the setter
under the write lock in Go, here it simply applies it. -/
def nodeCache.set (cache : nodeCache) (setter : nodeCache → nodeCache) : nodeCache :=
  setter cache

/-- Read accessor for the cached Kubernetes version. -/
def nodeCache.KubeVersion (cache : nodeCache) : String :=
  cache.kubernetesVersion

/-- Read accessor for the cached IP address. -/
def nodeCache.IP (cache : nodeCache) : String :=
  cache.ip

/-- Read accessor for a cached host port: `(0, false)` when the map is nil
or the entry is absent, mirroring Go map lookup semantics. -/
def nodeCache.HostPort (cache : nodeCache) (p : Int) : Int × Bool :=
  match cache.ports with
  | none => (0, false)
  | some m =>
      match mapLookup m p with
      | none => (0, false)
      | some v => (v, true)

/-- Read accessor for the cached role. -/
def nodeCache.Role (cache : nodeCache) : String :=
  cache.role

/-- Result of one node-handle query operation: the cache afterwards, the
returned value, the returned error (`none` = nil), and whether the
operation issued an external runtime query. -/
structure QueryOutcome (α : Type) where
  cache : nodeCache
  value : α
  err : Option GoError
  queried : Bool
deriving DecidableEq, Repr

/-- `errors.Errorf("<what> should only be one line, got %d lines", n)`:
the error produced when an external query does not yield exactly one line. -/
def unexpectedOutputShape (what : String) (n : Nat) : GoError :=
  GoError.errorf (what ++ " should only be one line, got " ++ toString n ++ " lines")

/-- `Node.KubeVersion`: return the cached version if non-empty; otherwise
run `cat /kind/version` on the node (outcome `resp`), require exactly one
output line, cache and return it. -/
def Node.KubeVersion (c : nodeCache) (resp : RunLines) : QueryOutcome String :=
  let cachedVersion := c.KubeVersion
  if cachedVersion ≠ "" then
    ⟨c, cachedVersion, none, false⟩
  else
    match resp with
    | .error e => ⟨c, "", some (GoError.wrap e "failed to get file"), true⟩
    | .ok lines =>
        match lines with
        | [version] =>
            ⟨c.set (fun cache => { cache with kubernetesVersion := version }),
              version, none, true⟩
        | _ => ⟨c, "", some (unexpectedOutputShape "file" lines.length), true⟩

/-- `Node.IP`: return the cached IP if non-empty; otherwise inspect the
container's network settings (outcome `resp`), require exactly one output
line, cache and return it. -/
def Node.IP (c : nodeCache) (resp : RunLines) : QueryOutcome String :=
  let cachedIP := c.IP
  if cachedIP ≠ "" then
    ⟨c, cachedIP, none, false⟩
  else
    match resp with
    | .error e => ⟨c, "", some (GoError.wrap e "failed to get file"), true⟩
    | .ok lines =>
        match lines with
        | [ip] =>
            ⟨c.set (fun cache => { cache with ip := ip }), ip, none, true⟩
        | _ => ⟨c, "", some (unexpectedOutputShape "file" lines.length), true⟩

/-- Go `strconv.ParseInt(s, 10, 32)`: optional sign, base-10 digits only,
result must fit in a signed 32-bit integer.  The Go call returns a clamped
value together with a range error; the caller only checks the error, so the
clamped value is irrelevant and the model returns just the error. -/
def strconvParseInt32 (s : String) : Except GoError Int :=
  let cs := s.toList
  let signAndDigits :=
    match cs with
    | '-' :: rest => (true, rest)
    | '+' :: rest => (false, rest)
    | _ => (false, cs)
  let digits := signAndDigits.2
  if digits = [] ∨ ¬ digits.all Char.isDigit then
    .error (GoError.base ("strconv.ParseInt: parsing \"" ++ s ++ "\": invalid syntax"))
  else
    let n : Nat := digits.foldl (fun a c => a * 10 + (c.toNat - 48)) 0
    let v : Int := if signAndDigits.1 then -(n : Int) else (n : Int)
    if v < -(2 ^ 31) ∨ 2 ^ 31 - 1 < v then
      .error (GoError.base ("strconv.ParseInt: parsing \"" ++ s ++ "\": value out of range"))
    else
      .ok v

/-- `Node.Ports(containerPort)`: return the cached host port if present;
otherwise inspect the container's port bindings (outcome `resp`), require
exactly one output line, parse it as a base-10 int32, cache and return it.
Every failure returns the sentinel `-1`. -/
def Node.Ports (c : nodeCache) (containerPort : Int) (resp : RunLines) :
    QueryOutcome Int :=
  let cached := c.HostPort containerPort
  if cached.2 then
    ⟨c, cached.1, none, false⟩
  else
    match resp with
    | .error e => ⟨c, -1, some (GoError.wrap e "failed to get file"), true⟩
    | .ok lines =>
        match lines with
        | [line] =>
            match strconvParseInt32 line with
            | .error e => ⟨c, -1, some (GoError.wrap e "failed to get file"), true⟩
            | .ok parsed =>
                ⟨c.set (fun cache =>
                    let m := match cache.ports with | none => [] | some m => m
                    { cache with ports := some (mapInsert m containerPort parsed) }),
                  parsed, none, true⟩
        | _ => ⟨c, -1, some (unexpectedOutputShape "file" lines.length), true⟩

/-- `constants.NodeRoleKey`, the label key holding the node role
(defined outside this file in the kind source tree). -/
def NodeRoleKey : String := "io.k8s.sigs.kind.role"

/-- Go `strings.Trim(s, cutset)`: remove all leading and trailing
characters of `cutset` from `s`. -/
def goStringsTrim (s : String) (cutset : String) : String :=
  let cs := cutset.toList
  let l := s.toList.dropWhile (fun c => cs.contains c)
  String.mk ((l.reverse.dropWhile (fun c => cs.contains c)).reverse)

/-- Go `%q` formatting of a plain string: surround it with double quotes. -/
def goQuote (s : String) : String := "\"" ++ s ++ "\""

/-- `Node.Role`: return the cached role if non-empty; otherwise inspect the
container's role label (outcome `resp`), require exactly one output line,
strip surrounding single quotes, cache and return it. -/
def Node.Role (c : nodeCache) (resp : RunLines) : QueryOutcome String :=
  let cachedRole := c.Role
  if cachedRole ≠ "" then
    ⟨c, cachedRole, none, false⟩
  else
    match resp with
    | .error e =>
        ⟨c, "", some (GoError.wrap e ("failed to get " ++ goQuote NodeRoleKey ++ " label")), true⟩
    | .ok lines =>
        match lines with
        | [line] =>
            let role := goStringsTrim line "'"
            ⟨c.set (fun cache => { cache with role := role }), role, none, true⟩
        | _ =>
            ⟨c, "", some (unexpectedOutputShape (goQuote NodeRoleKey ++ " label") lines.length),
              true⟩

/-- A command issued on the node through the command proxy
(`n.Command(name, args...)`), with an optional standard-input stream. -/
structure Cmd where
  name : String
  args : List String
  stdin : Option String := none
deriving DecidableEq, Repr

/-- Go `strings.Split` on the path separator, over the character list. -/
def splitOnSlash : List Char → List (List Char)
  | [] => [[]]
  | c :: rest =>
      let r := splitOnSlash rest
      if c = '/' then [] :: r
      else (c :: r.headD []) :: r.tail

/-- Join path elements with the path separator. -/
def joinSlash : List (List Char) → List Char
  | [] => []
  | [c] => c
  | c :: rest => c ++ '/' :: joinSlash rest

/-- Go `path/filepath.Clean` on unix paths: collapse repeated separators,
drop `.` elements, resolve `..` against preceding elements (or the root). -/
def pathClean (path : String) : String :=
  if path = "" then "."
  else
    let rooted := path.toList.head? = some '/'
    let comps := (splitOnSlash path.toList).filter (fun c => c ≠ [] ∧ c ≠ ['.'])
    let out := (comps.foldl (fun acc c =>
      if c = ['.', '.'] then
        match acc with
        | [] => if rooted then [] else [['.', '.']]
        | x :: rest => if x = ['.', '.'] then c :: acc else rest
      else c :: acc) []).reverse
    let s := joinSlash out
    if rooted then String.mk ('/' :: s)
    else if s = [] then "." else String.mk s

/-- Go `path/filepath.Dir` on unix paths: everything up to and including
the last separator, cleaned (`.` when there is no separator). -/
def filepathDir (path : String) : String :=
  let pre := (path.toList.reverse.dropWhile (fun c => c ≠ '/')).reverse
  pathClean (String.mk pre)

/-- `Node.WriteFile(dest, content)`: run `mkdir -p <Dir(dest)>` on the node
(outcome `mkdirErr`); on failure wrap the error with the target path and
stop; on success run `cp /dev/stdin <dest>` with `content` as its input
stream (outcome `cpErr`, returned as-is).  The first component records, in
order, every command actually issued. -/
def Node.WriteFile (dest content : String)
    (mkdirErr : Option GoError) (cpErr : Option GoError) :
    List Cmd × Option GoError :=
  let mkdirCmd : Cmd := ⟨"mkdir", ["-p", filepathDir dest], none⟩
  match mkdirErr with
  | some e =>
      ([mkdirCmd], some (GoError.wrap e ("failed to create directory " ++ dest)))
  | none =>
      ([mkdirCmd, ⟨"cp", ["/dev/stdin", dest], some content⟩], cpErr)

/-- `Node.CopyTo`: delegates to `docker.CopyTo` (outcome `copyErr`) and
returns its error verbatim. -/
def Node.CopyTo (copyErr : Option GoError) : Option GoError :=
  copyErr

/-- `Node.CopyFrom`: delegates to `docker.CopyFrom` (outcome `copyErr`) and
returns its error verbatim. -/
def Node.CopyFrom (copyErr : Option GoError) : Option GoError :=
  copyErr

/-- `Node.ImageInspect`: runs `crictl inspecti` on the node and returns the
captured output lines (or the error) verbatim, with no line-count check. -/
def Node.ImageInspect (execResult : RunLines) : RunLines :=
  execResult

/-- `Node.LoadImageArchive`: runs `ctr images import -` with the archive as
standard input (outcome `runErr`); a failure is wrapped with
"failed to load image". -/
def Node.LoadImageArchive (runErr : Option GoError) : Option GoError :=
  match runErr with
  | some e => some (GoError.wrap e "failed to load image")
  | none => none

/-- String-keyed association-list lookup, modelling Go `m[k]` presence
lookup on `map[string]string`. -/
def mapLookupStr (m : List (String × String)) (k : String) : Option String :=
  match m with
  | [] => none
  | (k', v) :: rest => if k' = k then some v else mapLookupStr rest k

/-- String-keyed association-list insertion, modelling Go map assignment. -/
def mapInsertStr (m : List (String × String)) (k v : String) :
    List (String × String) :=
  match m with
  | [] => [(k, v)]
  | (k', v') :: rest =>
      if k' = k then (k, v) :: rest else (k', v') :: mapInsertStr rest k v

/-- Go `strings.ToLower` restricted to the ASCII names it is applied to. -/
def goToLower (s : String) : String := String.mk (s.toList.map Char.toLower)

/-- `proxyDetails`: proxy settings discovered on the host. -/
structure proxyDetails where
  Envs : List (String × String)
deriving DecidableEq, Repr

/-- `getProxyDetails`: for each of HTTP_PROXY, HTTPS_PROXY, NO_PROXY, record
the upper-case variable's value when non-empty, else the lower-case
variable's value when non-empty, else nothing.  The ambient environment is
the explicit function `getenv` (Go `os.Getenv`, `""` for unset). -/
def getProxyDetails (getenv : String → String) : proxyDetails :=
  let proxyEnvs := ["HTTP_PROXY", "HTTPS_PROXY", "NO_PROXY"]
  ⟨proxyEnvs.foldl (fun envs name =>
    let val := getenv name
    if val ≠ "" then
      mapInsertStr envs name val
    else
      let val := getenv (goToLower name)
      if val ≠ "" then mapInsertStr envs name val else envs) []⟩

/-- One cache-touching node-handle operation together with the outcome of
the external runtime call it would make on a cache miss. -/
inductive NodeOp where
  | kubeVersion (resp : RunLines)
  | ip (resp : RunLines)
  | ports (containerPort : Int) (resp : RunLines)
  | role (resp : RunLines)
deriving Repr

/-- The cache after running one operation. -/
def applyOp (c : nodeCache) (op : NodeOp) : nodeCache :=
  match op with
  | .kubeVersion resp => (Node.KubeVersion c resp).cache
  | .ip resp => (Node.IP c resp).cache
  | .ports p resp => (Node.Ports c p resp).cache
  | .role resp => (Node.Role c resp).cache

/-- The cache after running a sequence of operations. -/
def runOps (c : nodeCache) (ops : List NodeOp) : nodeCache :=
  ops.foldl applyOp c

/-- Cache monotonicity: every field already set in `c` keeps exactly its
value in `c'` (strings: non-empty stays equal; ports: present entries keep
their host port). -/
def cacheMono (c c' : nodeCache) : Prop :=
  (c.kubernetesVersion ≠ "" → c'.kubernetesVersion = c.kubernetesVersion) ∧
  (c.ip ≠ "" → c'.ip = c.ip) ∧
  (c.role ≠ "" → c'.role = c.role) ∧
  (∀ p v, c.HostPort p = (v, true) → c'.HostPort p = (v, true))

/-! ### Branch lemmas for the four query operations -/

theorem mapLookup_mapInsert_self (m : List (Int × Int)) (k v : Int) :
    mapLookup (mapInsert m k v) k = some v := by
  induction m with
  | nil => simp [mapInsert, mapLookup]
  | cons hd tl ih =>
      obtain ⟨k', v'⟩ := hd
      by_cases h : k' = k <;> simp [mapInsert, mapLookup, h, ih]

theorem mapLookup_mapInsert_ne (m : List (Int × Int)) (k v p : Int) (h : k ≠ p) :
    mapLookup (mapInsert m k v) p = mapLookup m p := by
  induction m with
  | nil => simp [mapInsert, mapLookup, h]
  | cons hd tl ih =>
      obtain ⟨k', v'⟩ := hd
      by_cases hk : k' = k
      · subst hk
        simp [mapInsert, mapLookup, h]
      · simp [mapInsert, mapLookup, hk, ih]

theorem hostPort_true_iff (c : nodeCache) (p v : Int) :
    c.HostPort p = (v, true) ↔ ∃ m, c.ports = some m ∧ mapLookup m p = some v := by
  unfold nodeCache.HostPort
  rcases c.ports with _ | m
  · simp
  · rcases hl : mapLookup m p with _ | w <;> simp [hl]

theorem kubeVersion_hit (c : nodeCache) (r : RunLines) (h : c.kubernetesVersion ≠ "") :
    Node.KubeVersion c r = ⟨c, c.kubernetesVersion, none, false⟩ := by
  simp [Node.KubeVersion, nodeCache.KubeVersion, h]

theorem kubeVersion_miss_err (c : nodeCache) (e : GoError) (h : c.kubernetesVersion = "") :
    Node.KubeVersion c (Except.error e) =
      ⟨c, "", some (GoError.wrap e "failed to get file"), true⟩ := by
  simp [Node.KubeVersion, nodeCache.KubeVersion, h]

theorem kubeVersion_miss_ok (c : nodeCache) (v : String) (h : c.kubernetesVersion = "") :
    Node.KubeVersion c (Except.ok [v]) =
      ⟨{ c with kubernetesVersion := v }, v, none, true⟩ := by
  simp [Node.KubeVersion, nodeCache.KubeVersion, nodeCache.set, h]

theorem kubeVersion_miss_shape (c : nodeCache) (lines : List String)
    (h : c.kubernetesVersion = "") (hl : lines.length ≠ 1) :
    Node.KubeVersion c (Except.ok lines) =
      ⟨c, "", some (unexpectedOutputShape "file" lines.length), true⟩ := by
  rcases lines with _ | ⟨a, _ | ⟨b, t⟩⟩
  · simp [Node.KubeVersion, nodeCache.KubeVersion, h]
  · simp at hl
  · simp [Node.KubeVersion, nodeCache.KubeVersion, h]

theorem ip_hit (c : nodeCache) (r : RunLines) (h : c.ip ≠ "") :
    Node.IP c r = ⟨c, c.ip, none, false⟩ := by
  simp [Node.IP, nodeCache.IP, h]

theorem ip_miss_err (c : nodeCache) (e : GoError) (h : c.ip = "") :
    Node.IP c (Except.error e) =
      ⟨c, "", some (GoError.wrap e "failed to get file"), true⟩ := by
  simp [Node.IP, nodeCache.IP, h]

theorem ip_miss_ok (c : nodeCache) (v : String) (h : c.ip = "") :
    Node.IP c (Except.ok [v]) = ⟨{ c with ip := v }, v, none, true⟩ := by
  simp [Node.IP, nodeCache.IP, nodeCache.set, h]

theorem ip_miss_shape (c : nodeCache) (lines : List String)
    (h : c.ip = "") (hl : lines.length ≠ 1) :
    Node.IP c (Except.ok lines) =
      ⟨c, "", some (unexpectedOutputShape "file" lines.length), true⟩ := by
  rcases lines with _ | ⟨a, _ | ⟨b, t⟩⟩
  · simp [Node.IP, nodeCache.IP, h]
  · simp at hl
  · simp [Node.IP, nodeCache.IP, h]

theorem role_hit (c : nodeCache) (r : RunLines) (h : c.role ≠ "") :
    Node.Role c r = ⟨c, c.role, none, false⟩ := by
  simp [Node.Role, nodeCache.Role, h]

theorem role_miss_err (c : nodeCache) (e : GoError) (h : c.role = "") :
    Node.Role c (Except.error e) =
      ⟨c, "", some (GoError.wrap e ("failed to get " ++ goQuote NodeRoleKey ++ " label")), true⟩ := by
  simp [Node.Role, nodeCache.Role, h]

theorem role_miss_ok (c : nodeCache) (line : String) (h : c.role = "") :
    Node.Role c (Except.ok [line]) =
      ⟨{ c with role := goStringsTrim line "'" }, goStringsTrim line "'", none, true⟩ := by
  simp [Node.Role, nodeCache.Role, nodeCache.set, h]

theorem role_miss_shape (c : nodeCache) (lines : List String)
    (h : c.role = "") (hl : lines.length ≠ 1) :
    Node.Role c (Except.ok lines) =
      ⟨c, "", some (unexpectedOutputShape (goQuote NodeRoleKey ++ " label") lines.length),
        true⟩ := by
  rcases lines with _ | ⟨a, _ | ⟨b, t⟩⟩
  · simp [Node.Role, nodeCache.Role, h]
  · simp at hl
  · simp [Node.Role, nodeCache.Role, h]

theorem ports_hit (c : nodeCache) (p : Int) (r : RunLines) (v : Int)
    (h : c.HostPort p = (v, true)) :
    Node.Ports c p r = ⟨c, v, none, false⟩ := by
  simp [Node.Ports, h]

theorem ports_miss_err (c : nodeCache) (p : Int) (e : GoError)
    (h : (c.HostPort p).2 = false) :
    Node.Ports c p (Except.error e) =
      ⟨c, -1, some (GoError.wrap e "failed to get file"), true⟩ := by
  simp [Node.Ports, h]

theorem ports_miss_ok (c : nodeCache) (p : Int) (line : String) (w : Int)
    (h : (c.HostPort p).2 = false) (hp : strconvParseInt32 line = Except.ok w) :
    Node.Ports c p (Except.ok [line]) =
      ⟨c.set (fun cache =>
          let m := match cache.ports with | none => [] | some m => m
          { cache with ports := some (mapInsert m p w) }),
        w, none, true⟩ := by
  simp [Node.Ports, h, hp]

theorem ports_miss_badparse (c : nodeCache) (p : Int) (line : String) (e : GoError)
    (h : (c.HostPort p).2 = false) (hp : strconvParseInt32 line = Except.error e) :
    Node.Ports c p (Except.ok [line]) =
      ⟨c, -1, some (GoError.wrap e "failed to get file"), true⟩ := by
  simp [Node.Ports, h, hp]

theorem ports_miss_shape (c : nodeCache) (p : Int) (lines : List String)
    (h : (c.HostPort p).2 = false) (hl : lines.length ≠ 1) :
    Node.Ports c p (Except.ok lines) =
      ⟨c, -1, some (unexpectedOutputShape "file" lines.length), true⟩ := by
  rcases lines with _ | ⟨a, _ | ⟨b, t⟩⟩
  · simp [Node.Ports, h]
  · simp at hl
  · simp [Node.Ports, h]

/-! ### Cache monotonicity machinery -/

theorem cacheMono_refl (c : nodeCache) : cacheMono c c :=
  ⟨fun _ => rfl, fun _ => rfl, fun _ => rfl, fun _ _ h => h⟩

theorem cacheMono_trans {a b c : nodeCache}
    (h1 : cacheMono a b) (h2 : cacheMono b c) : cacheMono a c := by
  obtain ⟨k1, i1, r1, p1⟩ := h1
  obtain ⟨k2, i2, r2, p2⟩ := h2
  refine ⟨fun h => ?_, fun h => ?_, fun h => ?_, fun p v h => p2 p v (p1 p v h)⟩
  · rw [k2 (by rw [k1 h]; exact h), k1 h]
  · rw [i2 (by rw [i1 h]; exact h), i1 h]
  · rw [r2 (by rw [r1 h]; exact h), r1 h]

theorem hostPort_ports_eq (c c' : nodeCache) (h : c'.ports = c.ports) (p : Int) :
    c'.HostPort p = c.HostPort p := by
  unfold nodeCache.HostPort
  rw [h]

theorem cacheMono_kubeVersion (c : nodeCache) (r : RunLines) :
    cacheMono c (Node.KubeVersion c r).cache := by
  by_cases h : c.kubernetesVersion = ""
  · rcases r with e | lines
    · rw [kubeVersion_miss_err c e h]; exact cacheMono_refl c
    · rcases lines with _ | ⟨a, _ | ⟨b, t⟩⟩
      · rw [kubeVersion_miss_shape c [] h (by simp)]; exact cacheMono_refl c
      · rw [kubeVersion_miss_ok c a h]
        exact ⟨fun hk => absurd h hk, fun _ => rfl, fun _ => rfl,
          fun p v hp => by rwa [hostPort_ports_eq c { c with kubernetesVersion := a } rfl]⟩
      · rw [kubeVersion_miss_shape c (a :: b :: t) h (by simp)]; exact cacheMono_refl c
  · rw [kubeVersion_hit c r h]; exact cacheMono_refl c

theorem cacheMono_ip (c : nodeCache) (r : RunLines) :
    cacheMono c (Node.IP c r).cache := by
  by_cases h : c.ip = ""
  · rcases r with e | lines
    · rw [ip_miss_err c e h]; exact cacheMono_refl c
    · rcases lines with _ | ⟨a, _ | ⟨b, t⟩⟩
      · rw [ip_miss_shape c [] h (by simp)]; exact cacheMono_refl c
      · rw [ip_miss_ok c a h]
        exact ⟨fun _ => rfl, fun hi => absurd h hi, fun _ => rfl,
          fun p v hp => by rwa [hostPort_ports_eq c { c with ip := a } rfl]⟩
      · rw [ip_miss_shape c (a :: b :: t) h (by simp)]; exact cacheMono_refl c
  · rw [ip_hit c r h]; exact cacheMono_refl c

theorem cacheMono_role (c : nodeCache) (r : RunLines) :
    cacheMono c (Node.Role c r).cache := by
  by_cases h : c.role = ""
  · rcases r with e | lines
    · rw [role_miss_err c e h]; exact cacheMono_refl c
    · rcases lines with _ | ⟨a, _ | ⟨b, t⟩⟩
      · rw [role_miss_shape c [] h (by simp)]; exact cacheMono_refl c
      · rw [role_miss_ok c a h]
        exact ⟨fun _ => rfl, fun _ => rfl, fun hr => absurd h hr,
          fun p v hp => by rwa [hostPort_ports_eq c { c with role := goStringsTrim a "'" } rfl]⟩
      · rw [role_miss_shape c (a :: b :: t) h (by simp)]; exact cacheMono_refl c
  · rw [role_hit c r h]; exact cacheMono_refl c

theorem cacheMono_ports (c : nodeCache) (cp : Int) (r : RunLines) :
    cacheMono c (Node.Ports c cp r).cache := by
  by_cases h : (c.HostPort cp).2 = true
  · have hv : c.HostPort cp = ((c.HostPort cp).1, true) := by
      rw [← h]
    rw [ports_hit c cp r (c.HostPort cp).1 hv]; exact cacheMono_refl c
  · have h' : (c.HostPort cp).2 = false := by
      revert h; cases (c.HostPort cp).2 <;> simp
    rcases r with e | lines
    · rw [ports_miss_err c cp e h']; exact cacheMono_refl c
    · rcases lines with _ | ⟨a, _ | ⟨b, t⟩⟩
      · rw [ports_miss_shape c cp [] h' (by simp)]; exact cacheMono_refl c
      · rcases hp : strconvParseInt32 a with e | w
        · rw [ports_miss_badparse c cp a e h' hp]; exact cacheMono_refl c
        · rw [ports_miss_ok c cp a w h' hp]
          refine ⟨fun _ => rfl, fun _ => rfl, fun _ => rfl, fun p v hv => ?_⟩
          rw [hostPort_true_iff] at hv
          obtain ⟨m, hm, hl⟩ := hv
          have hpne : cp ≠ p := by
            intro hpp
            subst hpp
            have : c.HostPort cp = (v, true) := (hostPort_true_iff c cp v).mpr ⟨m, hm, hl⟩
            rw [this] at h'
            simp at h'
          rw [hostPort_true_iff]
          refine ⟨mapInsert m cp w, ?_, ?_⟩
          · simp [nodeCache.set, hm]
          · rw [mapLookup_mapInsert_ne m cp w p hpne]; exact hl
      · rw [ports_miss_shape c cp (a :: b :: t) h' (by simp)]; exact cacheMono_refl c

theorem cacheMono_applyOp (c : nodeCache) (op : NodeOp) :
    cacheMono c (applyOp c op) := by
  cases op with
  | kubeVersion r => exact cacheMono_kubeVersion c r
  | ip r => exact cacheMono_ip c r
  | ports p r => exact cacheMono_ports c p r
  | role r => exact cacheMono_role c r

theorem cacheMono_runOps (c : nodeCache) (ops : List NodeOp) :
    cacheMono c (runOps c ops) := by
  induction ops generalizing c with
  | nil => exact cacheMono_refl c
  | cons op rest ih =>
      have : runOps c (op :: rest) = runOps (applyOp c op) rest := rfl
      rw [this]
      exact cacheMono_trans (cacheMono_applyOp c op) (ih (applyOp c op))

/-! ### Error-path inversion lemmas -/

theorem kubeVersion_err_inv (c : nodeCache) (r : RunLines)
    (h : (Node.KubeVersion c r).err ≠ none) :
    (Node.KubeVersion c r).cache = c ∧ c.kubernetesVersion = "" := by
  by_cases hc : c.kubernetesVersion = ""
  · refine ⟨?_, hc⟩
    rcases r with e | lines
    · rw [kubeVersion_miss_err c e hc]
    · rcases lines with _ | ⟨a, _ | ⟨b, t⟩⟩
      · rw [kubeVersion_miss_shape c [] hc (by simp)]
      · rw [kubeVersion_miss_ok c a hc] at h; simp at h
      · rw [kubeVersion_miss_shape c (a :: b :: t) hc (by simp)]
  · rw [kubeVersion_hit c r hc] at h; simp at h

theorem ip_err_inv (c : nodeCache) (r : RunLines)
    (h : (Node.IP c r).err ≠ none) :
    (Node.IP c r).cache = c ∧ c.ip = "" := by
  by_cases hc : c.ip = ""
  · refine ⟨?_, hc⟩
    rcases r with e | lines
    · rw [ip_miss_err c e hc]
    · rcases lines with _ | ⟨a, _ | ⟨b, t⟩⟩
      · rw [ip_miss_shape c [] hc (by simp)]
      · rw [ip_miss_ok c a hc] at h; simp at h
      · rw [ip_miss_shape c (a :: b :: t) hc (by simp)]
  · rw [ip_hit c r hc] at h; simp at h

theorem role_err_inv (c : nodeCache) (r : RunLines)
    (h : (Node.Role c r).err ≠ none) :
    (Node.Role c r).cache = c ∧ c.role = "" := by
  by_cases hc : c.role = ""
  · refine ⟨?_, hc⟩
    rcases r with e | lines
    · rw [role_miss_err c e hc]
    · rcases lines with _ | ⟨a, _ | ⟨b, t⟩⟩
      · rw [role_miss_shape c [] hc (by simp)]
      · rw [role_miss_ok c a hc] at h; simp at h
      · rw [role_miss_shape c (a :: b :: t) hc (by simp)]
  · rw [role_hit c r hc] at h; simp at h

theorem hostPort_snd_false (c : nodeCache) (p : Int) (h : ¬ (c.HostPort p).2 = true) :
    (c.HostPort p).2 = false := by
  revert h; cases (c.HostPort p).2 <;> simp

theorem ports_err_inv (c : nodeCache) (p : Int) (r : RunLines)
    (h : (Node.Ports c p r).err ≠ none) :
    (Node.Ports c p r).cache = c ∧ (c.HostPort p).2 = false ∧
      (Node.Ports c p r).value = -1 := by
  by_cases hc : (c.HostPort p).2 = true
  · have hv : c.HostPort p = ((c.HostPort p).1, true) := by rw [← hc]
    rw [ports_hit c p r _ hv] at h; simp at h
  · have hf := hostPort_snd_false c p hc
    refine ⟨?_, hf, ?_⟩ <;>
    · rcases r with e | lines
      · rw [ports_miss_err c p e hf]
      · rcases lines with _ | ⟨a, _ | ⟨b, t⟩⟩
        · rw [ports_miss_shape c p [] hf (by simp)]
        · rcases hp : strconvParseInt32 a with e | w
          · rw [ports_miss_badparse c p a e hf hp]
          · rw [ports_miss_ok c p a w hf hp] at h; simp at h
        · rw [ports_miss_shape c p (a :: b :: t) hf (by simp)]

/-! ### Every error a query operation constructs is a wrap or a fresh
descriptive error -/

theorem unexpectedOutputShape_isErrorf (what : String) (n : Nat) :
    (unexpectedOutputShape what n).isErrorf = true := rfl

theorem kubeVersion_err_shape (c : nodeCache) (r : RunLines) (e : GoError)
    (h : (Node.KubeVersion c r).err = some e) :
    e.isWrap = true ∨ e.isErrorf = true := by
  obtain ⟨-, hc⟩ := kubeVersion_err_inv c r (by rw [h]; simp)
  rcases r with e' | lines
  · rw [kubeVersion_miss_err c e' hc] at h
    simp at h
    rw [← h]; left; rfl
  · rcases lines with _ | ⟨a, _ | ⟨b, t⟩⟩
    · rw [kubeVersion_miss_shape c [] hc (by simp)] at h
      simp at h
      rw [← h]; right; rfl
    · rw [kubeVersion_miss_ok c a hc] at h; simp at h
    · rw [kubeVersion_miss_shape c (a :: b :: t) hc (by simp)] at h
      simp at h
      rw [← h]; right; rfl

theorem ip_err_shape (c : nodeCache) (r : RunLines) (e : GoError)
    (h : (Node.IP c r).err = some e) :
    e.isWrap = true ∨ e.isErrorf = true := by
  obtain ⟨-, hc⟩ := ip_err_inv c r (by rw [h]; simp)
  rcases r with e' | lines
  · rw [ip_miss_err c e' hc] at h
    simp at h
    rw [← h]; left; rfl
  · rcases lines with _ | ⟨a, _ | ⟨b, t⟩⟩
    · rw [ip_miss_shape c [] hc (by simp)] at h
      simp at h
      rw [← h]; right; rfl
    · rw [ip_miss_ok c a hc] at h; simp at h
    · rw [ip_miss_shape c (a :: b :: t) hc (by simp)] at h
      simp at h
      rw [← h]; right; rfl

theorem role_err_shape (c : nodeCache) (r : RunLines) (e : GoError)
    (h : (Node.Role c r).err = some e) :
    e.isWrap = true ∨ e.isErrorf = true := by
  obtain ⟨-, hc⟩ := role_err_inv c r (by rw [h]; simp)
  rcases r with e' | lines
  · rw [role_miss_err c e' hc] at h
    simp at h
    rw [← h]; left; rfl
  · rcases lines with _ | ⟨a, _ | ⟨b, t⟩⟩
    · rw [role_miss_shape c [] hc (by simp)] at h
      simp at h
      rw [← h]; right; rfl
    · rw [role_miss_ok c a hc] at h; simp at h
    · rw [role_miss_shape c (a :: b :: t) hc (by simp)] at h
      simp at h
      rw [← h]; right; rfl

theorem ports_err_shape (c : nodeCache) (p : Int) (r : RunLines) (e : GoError)
    (h : (Node.Ports c p r).err = some e) :
    e.isWrap = true ∨ e.isErrorf = true := by
  obtain ⟨-, hf, -⟩ := ports_err_inv c p r (by rw [h]; simp)
  rcases r with e' | lines
  · rw [ports_miss_err c p e' hf] at h
    simp at h
    rw [← h]; left; rfl
  · rcases lines with _ | ⟨a, _ | ⟨b, t⟩⟩
    · rw [ports_miss_shape c p [] hf (by simp)] at h
      simp at h
      rw [← h]; right; rfl
    · rcases hp : strconvParseInt32 a with e' | w
      · rw [ports_miss_badparse c p a e' hf hp] at h
        simp at h
        rw [← h]; left; rfl
      · rw [ports_miss_ok c p a w hf hp] at h; simp at h
    · rw [ports_miss_shape c p (a :: b :: t) hf (by simp)] at h
      simp at h
      rw [← h]; right; rfl

/-! ### Claim theorems -/

/-- C2: for each of the four query operations, when the cache is unset for
the queried field and the external query succeeds but returns zero lines or
more than one line, the operation fails with the UnexpectedOutputShape
error, returns the zero/sentinel result, issues the query, and leaves the
cache as it was — for every such output. -/
theorem claim_wrong_line_count_rejected :
    (∀ (c : nodeCache) (lines : List String), c.kubernetesVersion = "" →
      lines.length ≠ 1 →
      Node.KubeVersion c (Except.ok lines) =
        ⟨c, "", some (unexpectedOutputShape "file" lines.length), true⟩) ∧
    (∀ (c : nodeCache) (lines : List String), c.ip = "" → lines.length ≠ 1 →
      Node.IP c (Except.ok lines) =
        ⟨c, "", some (unexpectedOutputShape "file" lines.length), true⟩) ∧
    (∀ (c : nodeCache) (lines : List String), c.role = "" → lines.length ≠ 1 →
      Node.Role c (Except.ok lines) =
        ⟨c, "", some (unexpectedOutputShape (goQuote NodeRoleKey ++ " label") lines.length),
          true⟩) ∧
    (∀ (c : nodeCache) (p : Int) (lines : List String),
      (c.HostPort p).2 = false → lines.length ≠ 1 →
      Node.Ports c p (Except.ok lines) =
        ⟨c, -1, some (unexpectedOutputShape "file" lines.length), true⟩) :=
  ⟨kubeVersion_miss_shape, ip_miss_shape, role_miss_shape, ports_miss_shape⟩

/-- Witness for C2 at zero lines (KubeVersion) and two lines (Role). -/
theorem claim_wrong_line_count_rejected_checked :
    Node.KubeVersion emptyCache (Except.ok []) =
      ⟨emptyCache, "", some (unexpectedOutputShape "file" 0), true⟩ ∧
    Node.Role emptyCache (Except.ok ["a", "b"]) =
      ⟨emptyCache, "", some (unexpectedOutputShape (goQuote NodeRoleKey ++ " label") 2),
        true⟩ ∧
    Node.Ports emptyCache 6443 (Except.ok []) =
      ⟨emptyCache, -1, some (unexpectedOutputShape "file" 0), true⟩ :=
  ⟨claim_wrong_line_count_rejected.1 emptyCache [] rfl (by decide),
   claim_wrong_line_count_rejected.2.2.1 emptyCache ["a", "b"] rfl (by decide),
   claim_wrong_line_count_rejected.2.2.2 emptyCache 6443 [] (by decide) (by decide)⟩

/-- C3: whenever a query operation returns a non-nil error (runtime failure,
wrong line count, or parse failure), the cache is left unchanged; a
subsequent call therefore performs the external query again (`queried`)
and, given well-formed output, succeeds. -/
theorem claim_error_leaves_cache_unset :
    (∀ (c : nodeCache) (r : RunLines), (Node.KubeVersion c r).err ≠ none →
      (Node.KubeVersion c r).cache = c) ∧
    (∀ (c : nodeCache) (r : RunLines), (Node.IP c r).err ≠ none →
      (Node.IP c r).cache = c) ∧
    (∀ (c : nodeCache) (r : RunLines), (Node.Role c r).err ≠ none →
      (Node.Role c r).cache = c) ∧
    (∀ (c : nodeCache) (p : Int) (r : RunLines), (Node.Ports c p r).err ≠ none →
      (Node.Ports c p r).cache = c) ∧
    (∀ (c : nodeCache) (r : RunLines) (v : String), (Node.KubeVersion c r).err ≠ none →
      Node.KubeVersion (Node.KubeVersion c r).cache (Except.ok [v]) =
        ⟨{ c with kubernetesVersion := v }, v, none, true⟩) ∧
    (∀ (c : nodeCache) (r : RunLines) (v : String), (Node.IP c r).err ≠ none →
      Node.IP (Node.IP c r).cache (Except.ok [v]) = ⟨{ c with ip := v }, v, none, true⟩) ∧
    (∀ (c : nodeCache) (r : RunLines) (v : String), (Node.Role c r).err ≠ none →
      Node.Role (Node.Role c r).cache (Except.ok [v]) =
        ⟨{ c with role := goStringsTrim v "'" }, goStringsTrim v "'", none, true⟩) ∧
    (∀ (c : nodeCache) (p : Int) (r : RunLines) (line : String) (w : Int),
      (Node.Ports c p r).err ≠ none → strconvParseInt32 line = Except.ok w →
      (Node.Ports (Node.Ports c p r).cache p (Except.ok [line])).value = w ∧
      (Node.Ports (Node.Ports c p r).cache p (Except.ok [line])).err = none ∧
      (Node.Ports (Node.Ports c p r).cache p (Except.ok [line])).queried = true) := by
  refine ⟨fun c r h => (kubeVersion_err_inv c r h).1,
    fun c r h => (ip_err_inv c r h).1,
    fun c r h => (role_err_inv c r h).1,
    fun c p r h => (ports_err_inv c p r h).1,
    fun c r v h => ?_, fun c r v h => ?_, fun c r v h => ?_,
    fun c p r line w h hp => ?_⟩
  · obtain ⟨hc, hunset⟩ := kubeVersion_err_inv c r h
    rw [hc, kubeVersion_miss_ok c v hunset]
  · obtain ⟨hc, hunset⟩ := ip_err_inv c r h
    rw [hc, ip_miss_ok c v hunset]
  · obtain ⟨hc, hunset⟩ := role_err_inv c r h
    rw [hc, role_miss_ok c v hunset]
  · obtain ⟨hc, hunset, -⟩ := ports_err_inv c p r h
    rw [hc, ports_miss_ok c p line w hunset hp]
    exact ⟨rfl, rfl, rfl⟩

/-- Witness for C3: a zero-line failure for each operation leaves the cache
empty and the retry with good output succeeds. -/
theorem claim_error_leaves_cache_unset_checked :
    (Node.KubeVersion emptyCache (Except.ok [])).cache = emptyCache ∧
    (Node.IP emptyCache (Except.ok [])).cache = emptyCache ∧
    (Node.Role emptyCache (Except.ok [])).cache = emptyCache ∧
    (Node.Ports emptyCache 6443 (Except.ok [])).cache = emptyCache ∧
    Node.KubeVersion (Node.KubeVersion emptyCache (Except.ok [])).cache
        (Except.ok ["v1.29.0"]) =
      ⟨{ emptyCache with kubernetesVersion := "v1.29.0" }, "v1.29.0", none, true⟩ ∧
    Node.IP (Node.IP emptyCache (Except.ok [])).cache (Except.ok ["10.0.0.2"]) =
      ⟨{ emptyCache with ip := "10.0.0.2" }, "10.0.0.2", none, true⟩ ∧
    Node.Role (Node.Role emptyCache (Except.ok [])).cache (Except.ok ["worker"]) =
      ⟨{ emptyCache with role := goStringsTrim "worker" "'" }, goStringsTrim "worker" "'",
        none, true⟩ ∧
    (Node.Ports (Node.Ports emptyCache 6443 (Except.ok [])).cache 6443
        (Except.ok ["32769"])).value = 32769 ∧
    (Node.Ports (Node.Ports emptyCache 6443 (Except.ok [])).cache 6443
        (Except.ok ["32769"])).err = none ∧
    (Node.Ports (Node.Ports emptyCache 6443 (Except.ok [])).cache 6443
        (Except.ok ["32769"])).queried = true :=
  ⟨claim_error_leaves_cache_unset.1 emptyCache (Except.ok []) (by decide),
   claim_error_leaves_cache_unset.2.1 emptyCache (Except.ok []) (by decide),
   claim_error_leaves_cache_unset.2.2.1 emptyCache (Except.ok []) (by decide),
   claim_error_leaves_cache_unset.2.2.2.1 emptyCache 6443 (Except.ok []) (by decide),
   claim_error_leaves_cache_unset.2.2.2.2.1 emptyCache (Except.ok []) "v1.29.0" (by decide),
   claim_error_leaves_cache_unset.2.2.2.2.2.1 emptyCache (Except.ok []) "10.0.0.2" (by decide),
   claim_error_leaves_cache_unset.2.2.2.2.2.2.1 emptyCache (Except.ok []) "worker" (by decide),
   claim_error_leaves_cache_unset.2.2.2.2.2.2.2 emptyCache 6443 (Except.ok []) "32769" 32769
     (by decide) rfl⟩

/-- C7: when the role query returns the single line containing
single-quoted control-plane, Role returns the value with the surrounding
single quotes stripped, nil error, and caches the stripped value. -/
theorem claim_role_strips_quotes :
    ∀ c : nodeCache, c.role = "" →
      Node.Role c (Except.ok ["'control-plane'"]) =
        ⟨{ c with role := "control-plane" }, "control-plane", none, true⟩ := by
  intro c h
  rw [role_miss_ok c "'control-plane'" h]
  have ht : goStringsTrim "'control-plane'" "'" = "control-plane" := by decide
  rw [ht]

/-- Witness for C7 on the empty cache. -/
theorem claim_role_strips_quotes_checked :
    Node.Role emptyCache (Except.ok ["'control-plane'"]) =
      ⟨{ emptyCache with role := "control-plane" }, "control-plane", none, true⟩ :=
  claim_role_strips_quotes emptyCache rfl

/-- C10: Ports parses the single output line as a base-10 signed 32-bit
integer: a well-formed integer outside the int32 range (3000000000) is
rejected with sentinel -1 and a range error, not silently truncated; the
int32 maximum parses to itself; and every successfully parsed value lies
within the int32 range. -/
theorem claim_ports_int32_range :
    Node.Ports emptyCache 6443 (Except.ok ["3000000000"]) =
      ⟨emptyCache, -1,
        some (GoError.wrap
          (GoError.base "strconv.ParseInt: parsing \"3000000000\": value out of range")
          "failed to get file"), true⟩ ∧
    (Node.Ports emptyCache 6443 (Except.ok ["2147483647"])).value = 2147483647 ∧
    (∀ (s : String) (v : Int), strconvParseInt32 s = Except.ok v →
      -(2 ^ 31) ≤ v ∧ v ≤ 2 ^ 31 - 1) := by
  refine ⟨by decide, by decide, fun s v h => ?_⟩
  unfold strconvParseInt32 at h
  dsimp only at h
  split at h
  · exact absurd h (by simp)
  · split at h <;> split at h
    · exact absurd h (by simp)
    · rename_i hguard
      rw [Except.ok.injEq] at h
      subst h
      push_neg at hguard
      exact hguard
    · exact absurd h (by simp)
    · rename_i hguard
      rw [Except.ok.injEq] at h
      subst h
      push_neg at hguard
      exact hguard

/-- Witness for C10's range bound at the parsed value 32769. -/
theorem claim_ports_int32_range_checked :
    -(2 ^ 31) ≤ (32769 : Int) ∧ (32769 : Int) ≤ 2 ^ 31 - 1 :=
  claim_ports_int32_range.2.2 "32769" 32769 rfl

/-- C1: after a first call succeeds and populates the cache (for the string
fields this means its value is non-empty — storing the empty string leaves
the field indistinguishable from unset; for ports any successful value is
stored in the map), every subsequent call of the same operation (same port
for Ports) returns the identical value with nil error, leaves the cache as
is, and issues no external runtime query (`queried = false`, so the result
does not depend on the second external outcome). -/
theorem claim_cached_value_stable :
    (∀ (c : nodeCache) (r r' : RunLines), (Node.KubeVersion c r).err = none →
      (Node.KubeVersion c r).value ≠ "" →
      Node.KubeVersion (Node.KubeVersion c r).cache r' =
        ⟨(Node.KubeVersion c r).cache, (Node.KubeVersion c r).value, none, false⟩) ∧
    (∀ (c : nodeCache) (r r' : RunLines), (Node.IP c r).err = none →
      (Node.IP c r).value ≠ "" →
      Node.IP (Node.IP c r).cache r' =
        ⟨(Node.IP c r).cache, (Node.IP c r).value, none, false⟩) ∧
    (∀ (c : nodeCache) (r r' : RunLines), (Node.Role c r).err = none →
      (Node.Role c r).value ≠ "" →
      Node.Role (Node.Role c r).cache r' =
        ⟨(Node.Role c r).cache, (Node.Role c r).value, none, false⟩) ∧
    (∀ (c : nodeCache) (p : Int) (r r' : RunLines), (Node.Ports c p r).err = none →
      Node.Ports (Node.Ports c p r).cache p r' =
        ⟨(Node.Ports c p r).cache, (Node.Ports c p r).value, none, false⟩) := by
  refine ⟨fun c r r' herr hval => ?_, fun c r r' herr hval => ?_,
    fun c r r' herr hval => ?_, fun c p r r' herr => ?_⟩
  · by_cases hc : c.kubernetesVersion = ""
    · rcases r with e | lines
      · rw [kubeVersion_miss_err c e hc] at herr; simp at herr
      · rcases lines with _ | ⟨a, _ | ⟨b, t⟩⟩
        · rw [kubeVersion_miss_shape c [] hc (by simp)] at herr; simp at herr
        · simp only [kubeVersion_miss_ok c a hc] at hval ⊢
          exact kubeVersion_hit _ r' hval
        · rw [kubeVersion_miss_shape c (a :: b :: t) hc (by simp)] at herr; simp at herr
    · simp only [kubeVersion_hit c r hc]
      exact kubeVersion_hit c r' hc
  · by_cases hc : c.ip = ""
    · rcases r with e | lines
      · rw [ip_miss_err c e hc] at herr; simp at herr
      · rcases lines with _ | ⟨a, _ | ⟨b, t⟩⟩
        · rw [ip_miss_shape c [] hc (by simp)] at herr; simp at herr
        · simp only [ip_miss_ok c a hc] at hval ⊢
          exact ip_hit _ r' hval
        · rw [ip_miss_shape c (a :: b :: t) hc (by simp)] at herr; simp at herr
    · simp only [ip_hit c r hc]
      exact ip_hit c r' hc
  · by_cases hc : c.role = ""
    · rcases r with e | lines
      · rw [role_miss_err c e hc] at herr; simp at herr
      · rcases lines with _ | ⟨a, _ | ⟨b, t⟩⟩
        · rw [role_miss_shape c [] hc (by simp)] at herr; simp at herr
        · simp only [role_miss_ok c a hc] at hval ⊢
          exact role_hit _ r' hval
        · rw [role_miss_shape c (a :: b :: t) hc (by simp)] at herr; simp at herr
    · simp only [role_hit c r hc]
      exact role_hit c r' hc
  · by_cases hc : (c.HostPort p).2 = true
    · have hv : c.HostPort p = ((c.HostPort p).1, true) := by rw [← hc]
      simp only [ports_hit c p r _ hv]
      exact ports_hit c p r' _ hv
    · have hf := hostPort_snd_false c p hc
      rcases r with e | lines
      · rw [ports_miss_err c p e hf] at herr; simp at herr
      · rcases lines with _ | ⟨a, _ | ⟨b, t⟩⟩
        · rw [ports_miss_shape c p [] hf (by simp)] at herr; simp at herr
        · rcases hp : strconvParseInt32 a with e | w
          · rw [ports_miss_badparse c p a e hf hp] at herr; simp at herr
          · simp only [ports_miss_ok c p a w hf hp]
            refine ports_hit _ p r' w ?_
            rw [hostPort_true_iff]
            exact ⟨mapInsert (match c.ports with | none => [] | some m => m) p w, rfl,
              mapLookup_mapInsert_self _ p w⟩
        · rw [ports_miss_shape c p (a :: b :: t) hf (by simp)] at herr; simp at herr

/-- Witness for C1: each operation, after a first successful call on the
empty cache, returns the same value again without querying even though the
second external outcome differs. -/
theorem claim_cached_value_stable_checked :
    Node.KubeVersion (Node.KubeVersion emptyCache (Except.ok ["v1.29.0"])).cache
        (Except.ok ["other"]) =
      ⟨(Node.KubeVersion emptyCache (Except.ok ["v1.29.0"])).cache,
        (Node.KubeVersion emptyCache (Except.ok ["v1.29.0"])).value, none, false⟩ ∧
    Node.IP (Node.IP emptyCache (Except.ok ["10.0.0.2"])).cache
        (Except.error (GoError.base "down")) =
      ⟨(Node.IP emptyCache (Except.ok ["10.0.0.2"])).cache,
        (Node.IP emptyCache (Except.ok ["10.0.0.2"])).value, none, false⟩ ∧
    Node.Role (Node.Role emptyCache (Except.ok ["'control-plane'"])).cache
        (Except.ok []) =
      ⟨(Node.Role emptyCache (Except.ok ["'control-plane'"])).cache,
        (Node.Role emptyCache (Except.ok ["'control-plane'"])).value, none, false⟩ ∧
    Node.Ports (Node.Ports emptyCache 6443 (Except.ok ["32769"])).cache 6443
        (Except.ok ["99"]) =
      ⟨(Node.Ports emptyCache 6443 (Except.ok ["32769"])).cache,
        (Node.Ports emptyCache 6443 (Except.ok ["32769"])).value, none, false⟩ :=
  ⟨claim_cached_value_stable.1 emptyCache (Except.ok ["v1.29.0"]) (Except.ok ["other"])
      (by decide) (by decide),
   claim_cached_value_stable.2.1 emptyCache (Except.ok ["10.0.0.2"])
      (Except.error (GoError.base "down")) (by decide) (by decide),
   claim_cached_value_stable.2.2.1 emptyCache (Except.ok ["'control-plane'"])
      (Except.ok []) (by decide) (by decide),
   claim_cached_value_stable.2.2.2 emptyCache 6443 (Except.ok ["32769"])
      (Except.ok ["99"]) (by decide)⟩

/-- C5: WriteFile first issues the directory-creation command for the parent
directory of dest; on mkdir failure no content-write command is issued and
the mkdir error is surfaced wrapped with the target path; on mkdir success
the content is streamed to dest via cp from standard input with content as
the input stream, and the cp outcome is returned.  In particular the parent
of "/a/b/c.txt" is "/a/b". -/
theorem claim_writefile_mkdir_first :
    (∀ (dest content : String) (ce : Option GoError),
      (Node.WriteFile dest content none ce).1 =
        [⟨"mkdir", ["-p", filepathDir dest], none⟩,
          ⟨"cp", ["/dev/stdin", dest], some content⟩] ∧
      (Node.WriteFile dest content none ce).2 = ce) ∧
    (∀ (dest content : String) (ce : Option GoError) (e : GoError),
      (Node.WriteFile dest content (some e) ce).1 =
        [⟨"mkdir", ["-p", filepathDir dest], none⟩] ∧
      (Node.WriteFile dest content (some e) ce).2 =
        some (GoError.wrap e ("failed to create directory " ++ dest))) ∧
    filepathDir "/a/b/c.txt" = "/a/b" :=
  ⟨fun _ _ _ => ⟨rfl, rfl⟩, fun _ _ _ _ => ⟨rfl, rfl⟩, by decide⟩

/-- C6: every failure path of Ports (runtime query error, wrong number of
output lines, non-numeric output) returns the sentinel -1 together with a
non-nil error; on a cache miss, single-line output 32769 yields the host
port 32769 with nil error, and non-numeric output yields -1 with the
wrapped parse error. -/
theorem claim_ports_sentinel_on_failure :
    (∀ (c : nodeCache) (p : Int) (r : RunLines), (Node.Ports c p r).err ≠ none →
      (Node.Ports c p r).value = -1) ∧
    (∀ (c : nodeCache) (p : Int), (c.HostPort p).2 = false →
      (Node.Ports c p (Except.ok ["32769"])).value = 32769 ∧
      (Node.Ports c p (Except.ok ["32769"])).err = none) ∧
    (∀ (c : nodeCache) (p : Int), (c.HostPort p).2 = false →
      (Node.Ports c p (Except.ok ["not-a-number"])).value = -1 ∧
      (Node.Ports c p (Except.ok ["not-a-number"])).err =
        some (GoError.wrap
          (GoError.base "strconv.ParseInt: parsing \"not-a-number\": invalid syntax")
          "failed to get file")) := by
  refine ⟨fun c p r h => (ports_err_inv c p r h).2.2, fun c p h => ?_, fun c p h => ?_⟩
  · rw [ports_miss_ok c p "32769" 32769 h rfl]
    exact ⟨rfl, rfl⟩
  · rw [ports_miss_badparse c p "not-a-number"
      (GoError.base "strconv.ParseInt: parsing \"not-a-number\": invalid syntax") h rfl]
    exact ⟨rfl, rfl⟩

/-- Witness for C6 on the empty cache: a runtime failure yields -1, good
output yields 32769 with nil error, non-numeric output yields -1 with the
parse error. -/
theorem claim_ports_sentinel_on_failure_checked :
    (Node.Ports emptyCache 6443 (Except.error (GoError.base "no such container"))).value
      = -1 ∧
    ((Node.Ports emptyCache 6443 (Except.ok ["32769"])).value = 32769 ∧
      (Node.Ports emptyCache 6443 (Except.ok ["32769"])).err = none) ∧
    ((Node.Ports emptyCache 6443 (Except.ok ["not-a-number"])).value = -1 ∧
      (Node.Ports emptyCache 6443 (Except.ok ["not-a-number"])).err =
        some (GoError.wrap
          (GoError.base "strconv.ParseInt: parsing \"not-a-number\": invalid syntax")
          "failed to get file")) :=
  ⟨claim_ports_sentinel_on_failure.1 emptyCache 6443
      (Except.error (GoError.base "no such container")) (by decide),
   claim_ports_sentinel_on_failure.2.1 emptyCache 6443 rfl,
   claim_ports_sentinel_on_failure.2.2 emptyCache 6443 rfl⟩

/-- C9: over any sequence of node-handle operations, each cache field only
moves from unset to set: a non-empty string field and a present port entry
keep exactly their values across the rest of the sequence (no reset, no
clear, no overwrite with a different value). -/
theorem claim_cache_monotone :
    ∀ (c : nodeCache) (ops : List NodeOp), cacheMono c (runOps c ops) :=
  cacheMono_runOps

/-- Witness for C9: a fully populated cache survives a sequence containing
successful, failing, and conflicting operations unchanged in every
populated field. -/
theorem claim_cache_monotone_checked :
    (runOps ⟨"v1.29.0", "10.0.0.2", some [(6443, 32769)], "control-plane"⟩
        [NodeOp.kubeVersion (Except.ok ["v9.9.9"]),
          NodeOp.ports 6443 (Except.ok ["1"]),
          NodeOp.role (Except.error (GoError.base "boom")),
          NodeOp.ip (Except.ok ["8.8.8.8"])]).kubernetesVersion = "v1.29.0" ∧
    (runOps ⟨"v1.29.0", "10.0.0.2", some [(6443, 32769)], "control-plane"⟩
        [NodeOp.kubeVersion (Except.ok ["v9.9.9"]),
          NodeOp.ports 6443 (Except.ok ["1"]),
          NodeOp.role (Except.error (GoError.base "boom")),
          NodeOp.ip (Except.ok ["8.8.8.8"])]).HostPort 6443 = (32769, true) :=
  ⟨(claim_cache_monotone ⟨"v1.29.0", "10.0.0.2", some [(6443, 32769)], "control-plane"⟩
      [NodeOp.kubeVersion (Except.ok ["v9.9.9"]), NodeOp.ports 6443 (Except.ok ["1"]),
        NodeOp.role (Except.error (GoError.base "boom")),
        NodeOp.ip (Except.ok ["8.8.8.8"])]).1 (by decide),
   (claim_cache_monotone ⟨"v1.29.0", "10.0.0.2", some [(6443, 32769)], "control-plane"⟩
      [NodeOp.kubeVersion (Except.ok ["v9.9.9"]), NodeOp.ports 6443 (Except.ok ["1"]),
        NodeOp.role (Except.error (GoError.base "boom")),
        NodeOp.ip (Except.ok ["8.8.8.8"])]).2.2.2 6443 32769 (by decide)⟩

/-- C4 is false as stated: CopyTo, CopyFrom, ImageInspect, and the
content-write step of WriteFile return the underlying error verbatim —
no wrapping description of the attempted operation is added. -/
theorem claim_every_error_wrapped_refuted :
    Node.CopyTo (some (GoError.base "boom")) = some (GoError.base "boom") ∧
    Node.CopyFrom (some (GoError.base "boom")) = some (GoError.base "boom") ∧
    Node.ImageInspect (Except.error (GoError.base "boom")) =
      Except.error (GoError.base "boom") ∧
    (Node.WriteFile "/a/b/c.txt" "hello" none (some (GoError.base "boom"))).2 =
      some (GoError.base "boom") ∧
    (GoError.base "boom").isWrap = false ∧
    (GoError.base "boom").isErrorf = false :=
  ⟨rfl, rfl, rfl, rfl, rfl, rfl⟩

/-- C4 amended: the four metadata query operations only ever return errors
they wrapped or freshly constructed with a description of the attempted
operation; LoadImageArchive and WriteFile's directory-creation step wrap
their errors; but CopyTo, CopyFrom, ImageInspect, and WriteFile's
content-write step propagate the underlying error verbatim.  No operation
swallows an error. -/
theorem claim_error_wrapping_policy :
    (∀ (c : nodeCache) (r : RunLines) (e : GoError),
      (Node.KubeVersion c r).err = some e → e.isWrap = true ∨ e.isErrorf = true) ∧
    (∀ (c : nodeCache) (r : RunLines) (e : GoError),
      (Node.IP c r).err = some e → e.isWrap = true ∨ e.isErrorf = true) ∧
    (∀ (c : nodeCache) (r : RunLines) (e : GoError),
      (Node.Role c r).err = some e → e.isWrap = true ∨ e.isErrorf = true) ∧
    (∀ (c : nodeCache) (p : Int) (r : RunLines) (e : GoError),
      (Node.Ports c p r).err = some e → e.isWrap = true ∨ e.isErrorf = true) ∧
    (∀ e : GoError,
      Node.LoadImageArchive (some e) = some (GoError.wrap e "failed to load image")) ∧
    (∀ (dest content : String) (ce : Option GoError) (e : GoError),
      (Node.WriteFile dest content (some e) ce).2 =
        some (GoError.wrap e ("failed to create directory " ++ dest))) ∧
    (∀ r : Option GoError, Node.CopyTo r = r) ∧
    (∀ r : Option GoError, Node.CopyFrom r = r) ∧
    (∀ r : RunLines, Node.ImageInspect r = r) ∧
    (∀ (dest content : String) (ce : Option GoError),
      (Node.WriteFile dest content none ce).2 = ce) :=
  ⟨kubeVersion_err_shape, ip_err_shape, role_err_shape, ports_err_shape,
   fun _ => rfl, fun _ _ _ _ => rfl, fun _ => rfl, fun _ => rfl, fun _ => rfl,
   fun _ _ _ => rfl⟩

/-- Witness for the amended C4: concrete wrapped errors from each query
operation on the empty cache. -/
theorem claim_error_wrapping_policy_checked :
    ((GoError.wrap (GoError.base "boom") "failed to get file").isWrap = true ∨
      (GoError.wrap (GoError.base "boom") "failed to get file").isErrorf = true) ∧
    ((unexpectedOutputShape "file" 0).isWrap = true ∨
      (unexpectedOutputShape "file" 0).isErrorf = true) ∧
    ((GoError.wrap (GoError.base "boom")
        ("failed to get " ++ goQuote NodeRoleKey ++ " label")).isWrap = true ∨
      (GoError.wrap (GoError.base "boom")
        ("failed to get " ++ goQuote NodeRoleKey ++ " label")).isErrorf = true) ∧
    ((GoError.wrap
        (GoError.base "strconv.ParseInt: parsing \"not-a-number\": invalid syntax")
        "failed to get file").isWrap = true ∨
      (GoError.wrap
        (GoError.base "strconv.ParseInt: parsing \"not-a-number\": invalid syntax")
        "failed to get file").isErrorf = true) :=
  ⟨claim_error_wrapping_policy.1 emptyCache (Except.error (GoError.base "boom")) _
      (by decide),
   claim_error_wrapping_policy.2.1 emptyCache (Except.ok []) _ (by decide),
   claim_error_wrapping_policy.2.2.1 emptyCache (Except.error (GoError.base "boom")) _
      (by decide),
   claim_error_wrapping_policy.2.2.2.1 emptyCache 6443 (Except.ok ["not-a-number"]) _
      (by decide)⟩

/-! ### Proxy-environment discovery lemmas -/

theorem mapLookupStr_insert_self (m : List (String × String)) (k v : String) :
    mapLookupStr (mapInsertStr m k v) k = some v := by
  induction m with
  | nil => simp [mapInsertStr, mapLookupStr]
  | cons hd tl ih =>
      obtain ⟨k', v'⟩ := hd
      by_cases h : k' = k <;> simp [mapInsertStr, mapLookupStr, h, ih]

theorem mapLookupStr_insert_ne (m : List (String × String)) (k v k2 : String)
    (h : k ≠ k2) :
    mapLookupStr (mapInsertStr m k v) k2 = mapLookupStr m k2 := by
  induction m with
  | nil => simp [mapInsertStr, mapLookupStr, h]
  | cons hd tl ih =>
      obtain ⟨k', v'⟩ := hd
      by_cases hk : k' = k
      · subst hk
        simp [mapInsertStr, mapLookupStr, h]
      · simp [mapInsertStr, mapLookupStr, hk, ih]

theorem goToLower_http : goToLower "HTTP_PROXY" = "http_proxy" := by decide

theorem goToLower_https : goToLower "HTTPS_PROXY" = "https_proxy" := by decide

theorem goToLower_no : goToLower "NO_PROXY" = "no_proxy" := by decide

/-- C8: proxy-environment discovery is a pure function of the environment:
for each of the three proxy names, the output mapping holds the upper-case
name bound to the upper-case variable's value when that is non-empty,
otherwise to the lower-case variable's value when that is non-empty, and
holds no entry for that name when both are empty or absent. -/
theorem claim_proxy_env_discovery :
    ∀ getenv : String → String,
      (mapLookupStr (getProxyDetails getenv).Envs "HTTP_PROXY" =
        (if getenv "HTTP_PROXY" ≠ "" then some (getenv "HTTP_PROXY")
         else if getenv "http_proxy" ≠ "" then some (getenv "http_proxy") else none)) ∧
      (mapLookupStr (getProxyDetails getenv).Envs "HTTPS_PROXY" =
        (if getenv "HTTPS_PROXY" ≠ "" then some (getenv "HTTPS_PROXY")
         else if getenv "https_proxy" ≠ "" then some (getenv "https_proxy") else none)) ∧
      (mapLookupStr (getProxyDetails getenv).Envs "NO_PROXY" =
        (if getenv "NO_PROXY" ≠ "" then some (getenv "NO_PROXY")
         else if getenv "no_proxy" ≠ "" then some (getenv "no_proxy") else none)) := by
  intro getenv
  unfold getProxyDetails
  simp only [List.foldl, goToLower_http, goToLower_https, goToLower_no]
  refine ⟨?_, ?_, ?_⟩ <;>
    split_ifs <;>
      simp_all [mapLookupStr_insert_self, mapLookupStr_insert_ne, mapLookupStr]
